import Mathlib

/-!
Shallow embedding of `src/src/main.rs` (tuition-calculator-webdev).

Monetary values (`rust_decimal::Decimal`) are modelled as exact rationals `ℚ`:
the decimals form a subring of `ℚ` and the operations used by the program
(addition, multiplication, conversion from `u8`) are exact on decimals.

The database (MySQL via sqlx) is modelled as in-memory tables (lists of rows)
plus per-statement fault-injection fields that stand for transient I/O errors
of the corresponding SQL statement (`none` = statement reaches the store).
`fetch_one` returns the first matching row and fails with `RowNotFound` when
there is none, as sqlx does.
-/

/-- Raw form fields of POST /calculate (`CalculateTuitionFormParams`,
main.rs lines 9-19).  Fields are `Option` because the form may omit them. -/
structure CalculateTuitionFormParams where
  first_name : Option String
  last_name : Option String
  num_credits : Option String
  new_student : Option String
  orientation : Option String
  student_type : Option String
  student_studies : Option String
deriving DecidableEq, Repr

/-- Raw form fields of POST /lookup (`LookupFormParams`, main.rs lines 21-25). -/
structure LookupFormParams where
  first_name : Option String
  last_name : Option String
deriving DecidableEq, Repr

/-- `StudentResidency` (main.rs lines 32-35). -/
inductive StudentResidency where
  | In
  | Out
deriving DecidableEq, Repr

/-- `StudentStudies` (main.rs lines 37-40). -/
inductive StudentStudies where
  | Undergraduate
  | Graduate
deriving DecidableEq, Repr

/-- `TypeSafeParameters` (main.rs lines 42-50); `num_credits` is a `u8`,
kept as a `Nat` that `parseU8` bounds by 255. -/
structure TypeSafeParameters where
  first_name : String
  last_name : String
  num_credits : Nat
  new_student : Bool
  orientation : Bool
  student_type : StudentResidency
  student_studies : StudentStudies
deriving DecidableEq, Repr

/-- A row of the `CreditCosts` table.  The query in main.rs lines 225-232
keys the table by the *raw form strings* `Studies` and `Residency`. -/
structure CreditCostsRow where
  Studies : String
  Residency : String
  CreditsCost : ℚ
  NonresidencyFee : ℚ
deriving DecidableEq, Repr

/-- A row of the `orientation_fee` table (main.rs lines 157-161). -/
structure OrientationFeeRow where
  Fee : ℚ
deriving DecidableEq, Repr

/-- A row of the `UserTuition` table (main.rs lines 76-84). -/
structure UserTuitionRow where
  FirstName : String
  LastName : String
  TuitionCost : ℚ
deriving DecidableEq, Repr

/-- sqlx errors as observed by the handlers: `RowNotFound` from `fetch_one`
on an empty result set, or any other (I/O, connection, statement) error. -/
inductive SqlxError where
  | RowNotFound
  | Io (msg : String)
deriving DecidableEq, Repr

/-- Display string of a sqlx error (used in the handlers' diagnostics). -/
def sqlxMessage : SqlxError → String
  | .RowNotFound => "no rows returned by a query that expected to return at least one row"
  | .Io m => m

/-- The database reachable through the pooled connection, plus one
fault-injection slot per SQL statement in the program. -/
structure Db where
  creditCosts : List CreditCostsRow
  orientationFees : List OrientationFeeRow
  userTuition : List UserTuitionRow
  rateFault : Option String := none
  orientationFault : Option String := none
  lookupFault : Option String := none
  existsFault : Option String := none
  insertFault : Option String := none
  updateFault : Option String := none
deriving DecidableEq, Repr

/-- `fetch_one`: fails with the injected statement fault if any, with
`RowNotFound` on an empty result set, and otherwise yields the first row. -/
def fetchOne {α : Type} (fault : Option String) (rows : List α) : Except SqlxError α :=
  match fault with
  | some m => .error (.Io m)
  | none =>
    match rows with
    | [] => .error .RowNotFound
    | r :: _ => .ok r

/-- Everything a handler can produce: the generic error page (carrying the
operator-facing diagnostic that was printed), the /lookup result table, or
the /calculate result table with its displayed fields. -/
inductive Response where
  | errorPage (console_msg : String)
  | lookupPage (firstName lastName : String) (tuitionCost : ℚ)
  | calcPage (first_name last_name : String) (student_type : StudentResidency)
      (student_studies : StudentStudies) (new_student : Bool)
      (orientationFee nonresidencyFee : ℚ) (num_credits : Nat)
      (creditsCost total : ℚ)
deriving DecidableEq, Repr

/-- A handler run: a response together with the database it leaves behind,
or a panic of the request task (`unwrap` on a failed parse). -/
inductive Outcome where
  | ok (resp : Response) (db : Db)
  | panic
deriving DecidableEq, Repr

/-- The response of an outcome, if the handler did not panic. -/
def Outcome.resp : Outcome → Option Response
  | .ok r _ => some r
  | .panic => none

/-- The `UserTuition` table left behind by an outcome. -/
def Outcome.tuitionTable : Outcome → Option (List UserTuitionRow)
  | .ok _ d => some d.userTuition
  | .panic => none

/-- Rust's `str::parse::<u8>()`: an optional leading `+`, then at least one
decimal digit, and the value must fit in a `u8` (at most 255); anything else
— empty input, a non-digit, overflow — is a parse error. -/
def parseU8 (s : String) : Option Nat :=
  let cs := match s.data with
    | '+' :: rest => rest
    | cs => cs
  if cs = [] then none
  else if cs.all (fun c => c.isDigit) then
    let n := cs.foldl (fun n c => n * 10 + (c.toNat - 48)) 0
    if n ≤ 255 then some n else none
  else none

/-- Checkbox decoding (main.rs lines 184-195): present and equal to the
literal "on" means true; absent means false; any other value means false. -/
def checkbox : Option String → Bool
  | some v => v == "on"
  | none => false

/-- `student_type` classification (main.rs lines 196-204): "resident" is
In-state, "nonresident" is Out-of-state, anything else is Out-of-state. -/
def classifyResidency (val : String) : StudentResidency :=
  if val == "resident" then .In
  else if val == "nonresident" then .Out
  else .Out

/-- `student_studies` classification (main.rs lines 209-217): "undergraduate"
is Undergraduate, "nonresident" (sic, the literal in the source) is Graduate,
anything else is Undergraduate. -/
def classifyStudies (val : String) : StudentStudies :=
  if val == "undergraduate" then .Undergraduate
  else if val == "nonresident" then .Graduate
  else .Undergraduate

/-- Validation outcome of building `TypeSafeParameters` (main.rs lines
165-222): a typed record (together with the raw `student_type` and
`student_studies` strings, which the SQL query later binds verbatim), an
early-returned error page message, or a panic from `parse::<u8>().unwrap()`. -/
inductive Validated where
  | ok (tsp : TypeSafeParameters) (typeRaw studiesRaw : String)
  | err (msg : String)
  | panics
deriving DecidableEq, Repr

/-- The struct-literal build of `TypeSafeParameters` (main.rs lines 165-222),
field by field in source order, with the source's early returns and the
`unwrap` panic on a malformed credit count. -/
def validateCalc (p : CalculateTuitionFormParams) : Validated :=
  match p.first_name with
  | none => .err "No first name was provided!"
  | some first_name =>
    match p.last_name with
    | none => .err "No last name was provided!"
    | some last_name =>
      match p.num_credits with
      | none => .err "No credits were provided!"
      | some ncRaw =>
        match parseU8 ncRaw with
        | none => .panics
        | some num_credits =>
          match p.student_type with
          | none => .err "User must be either a nonresident or resident."
          | some typeRaw =>
            match p.student_studies with
            | none => .err "User must be either a undergraduate or graduate."
            | some studiesRaw =>
              .ok ⟨first_name, last_name, num_credits,
                   checkbox p.new_student, checkbox p.orientation,
                   classifyResidency typeRaw, classifyStudies studiesRaw⟩
                  typeRaw studiesRaw

/-- The `CreditCosts` query (main.rs lines 225-232): selects the rows whose
`Studies` and `Residency` columns equal the bound raw strings, `fetch_one`. -/
def queryRates (db : Db) (studiesRaw typeRaw : String) : Except SqlxError CreditCostsRow :=
  fetchOne db.rateFault
    (db.creditCosts.filter fun r => r.Studies == studiesRaw && r.Residency == typeRaw)

/-- The orientation-fee step (main.rs lines 241-256): the fee defaults to
`Decimal::new(000, 2)` = 0.00 and is fetched from `orientation_fee` only when
the orientation checkbox was on. -/
def orientationStep (fault : Option String) (fees : List OrientationFeeRow)
    (orientation : Bool) : Except SqlxError ℚ :=
  if orientation then (fetchOne fault fees).map OrientationFeeRow.Fee
  else .ok 0

/-- The existence check (main.rs lines 301-314): `fetch_one` on `UserTuition`
filtered by both names; `Ok(_)` means true and *any* `Err(_)` means false. -/
def userExists (db : Db) (first_name last_name : String) : Bool :=
  match fetchOne db.existsFault
      (db.userTuition.filter fun r =>
        r.FirstName == first_name && r.LastName == last_name) with
  | .ok _ => true
  | .error _ => false

/-- The UPDATE statement (main.rs lines 335-343): sets `TuitionCost` on every
row whose names match. -/
def updateCost (rows : List UserTuitionRow) (first_name last_name : String)
    (total : ℚ) : List UserTuitionRow :=
  rows.map fun r =>
    if r.FirstName == first_name && r.LastName == last_name then
      { r with TuitionCost := total }
    else r

/-- The write stage (main.rs lines 301-350): existence check, then INSERT if
absent else UPDATE; a failing statement returns the error page and leaves the
table as it was. -/
def writeStep (db : Db) (first_name last_name : String) (total : ℚ)
    (page : Response) : Outcome :=
  if !userExists db first_name last_name then
    match db.insertFault with
    | some why => .ok (.errorPage ("Error while inserting to the database: " ++ why)) db
    | none =>
      .ok page { db with userTuition := db.userTuition ++ [⟨first_name, last_name, total⟩] }
  else
    match db.updateFault with
    | some why => .ok (.errorPage ("Error while updating the database: " ++ why)) db
    | none =>
      .ok page { db with userTuition := updateCost db.userTuition first_name last_name total }

/-- The body of `calculate` after validation (main.rs lines 224-356): rate
fetch keyed by the raw strings, orientation step, the total
`CreditsCost * num_credits + NonresidencyFee + Fee`, the rendered table, and
the write stage. -/
def calculateBody (db : Db) (tsp : TypeSafeParameters)
    (typeRaw studiesRaw : String) : Outcome :=
  match queryRates db studiesRaw typeRaw with
  | .error why =>
    .ok (.errorPage ("Error while accessing database: " ++ sqlxMessage why)) db
  | .ok tuition_cost =>
    match orientationStep db.orientationFault db.orientationFees tsp.orientation with
    | .error why =>
      .ok (.errorPage ("Error while accessing database: " ++ sqlxMessage why)) db
    | .ok fee =>
      writeStep db tsp.first_name tsp.last_name
        (tuition_cost.CreditsCost * (tsp.num_credits : ℚ) + tuition_cost.NonresidencyFee + fee)
        (.calcPage tsp.first_name tsp.last_name tsp.student_type tsp.student_studies
          tsp.new_student fee tuition_cost.NonresidencyFee tsp.num_credits
          tuition_cost.CreditsCost
          (tuition_cost.CreditsCost * (tsp.num_credits : ℚ) + tuition_cost.NonresidencyFee + fee))

/-- The POST /calculate handler (main.rs lines 145-356). -/
def calculate (db : Db) (p : CalculateTuitionFormParams) : Outcome :=
  match validateCalc p with
  | .panics => .panic
  | .err msg => .ok (.errorPage msg) db
  | .ok tsp typeRaw studiesRaw => calculateBody db tsp typeRaw studiesRaw

/-- The POST /lookup handler (main.rs lines 58-134): both names merely checked
for presence (no trimming, no emptiness check), then `fetch_one` on
`UserTuition` by exact match. -/
def lookup (db : Db) (p : LookupFormParams) : Outcome :=
  match p.first_name with
  | none => .ok (.errorPage "First name not provided") db
  | some firstName =>
    match p.last_name with
    | none => .ok (.errorPage "Last name not provided") db
    | some lastName =>
      match fetchOne db.lookupFault
          (db.userTuition.filter fun r =>
            r.FirstName == firstName && r.LastName == lastName) with
      | .error why =>
        .ok (.errorPage ("Error while accessing database: " ++ sqlxMessage why)) db
      | .ok u => .ok (.lookupPage u.FirstName u.LastName u.TuitionCost) db

/-- Mapping a function over the database component of an outcome. -/
def Outcome.mapDb (g : Db → Db) : Outcome → Outcome
  | .ok r d => .ok r (g d)
  | .panic => .panic

/-- A small concrete database: one rate row keyed by the raw strings
("undergraduate", "nonresident"), a singleton orientation fee, no stored
user-tuition rows, no statement faults. -/
def sampleDb : Db :=
  { creditCosts := [⟨"undergraduate", "nonresident", 300, 500⟩],
    orientationFees := [⟨75⟩],
    userTuition := [] }

/-- A complete, well-formed /calculate form submission (spec example:
creditsCost=300.00, numCredits=12, nonresidencyFee=500.00, no orientation). -/
def sampleParams : CalculateTuitionFormParams :=
  { first_name := some "Ada", last_name := some "L",
    num_credits := some "12", new_student := some "on",
    orientation := none, student_type := some "nonresident",
    student_studies := some "undergraduate" }

/-- The sample submission with the malformed credit count "abc". -/
def abcParams : CalculateTuitionFormParams :=
  { first_name := some "Ada", last_name := some "L",
    num_credits := some "abc", new_student := none,
    orientation := none, student_type := some "resident",
    student_studies := some "undergraduate" }

/-- The sample submission with the unrecognized student_type. -/
def unrecognizedParams : CalculateTuitionFormParams :=
  { sampleParams with student_type := some "unrecognized" }

/-- A rate table keyed by a fanciful raw student_type string. -/
def weirdDb : Db :=
  { creditCosts := [⟨"undergraduate", "weird", 200, 50⟩],
    orientationFees := [], userTuition := [] }

/-- The sample submission with student_type "weird". -/
def weirdParams : CalculateTuitionFormParams :=
  { sampleParams with student_type := some "weird" }

/-- A rate table keyed by the raw pair ("nonresident", "resident") — the pair
a Graduate in-state submission binds. -/
def gradDb : Db :=
  { creditCosts := [⟨"nonresident", "resident", 400, 0⟩],
    orientationFees := [], userTuition := [] }

/-- A submission whose student_studies is the literal "nonresident". -/
def gradParams : CalculateTuitionFormParams :=
  { first_name := some "Ada", last_name := some "L", num_credits := some "3",
    new_student := none, orientation := none,
    student_type := some "resident", student_studies := some "nonresident" }

/-- The sample submission with no student_studies field. -/
def noStudiesParams : CalculateTuitionFormParams :=
  { sampleParams with student_studies := none }

/-- A user-tuition table holding a row for the whitespace-only name pair. -/
def wsDb : Db :=
  { creditCosts := [], orientationFees := [], userTuition := [⟨" ", " ", 100⟩] }

/-- A /lookup submission whose names are whitespace-only. -/
def wsLookup : LookupFormParams := { first_name := some " ", last_name := some " " }

/-- A /lookup submission with no first name. -/
def noFirstLookup : LookupFormParams := { first_name := none, last_name := some "L" }

/-- The sample submission with no first name. -/
def noFirstParams : CalculateTuitionFormParams :=
  { sampleParams with first_name := none }

/-- A /lookup submission for a pair with no stored record. -/
def absentLookup : LookupFormParams := { first_name := some "X", last_name := some "Y" }

/-- The sample database with a stored row for ("Ada","L") and a failing
existence-check statement. -/
def faultyDb : Db :=
  { creditCosts := [⟨"undergraduate", "nonresident", 300, 500⟩],
    orientationFees := [⟨75⟩],
    userTuition := [⟨"Ada", "L", 1⟩],
    existsFault := some "connection reset" }

/-- The sample submission with the orientation checkbox on. -/
def onParams : CalculateTuitionFormParams :=
  { sampleParams with orientation := some "on" }

/-- The sample submission resubmitted with 10 credits. -/
def sampleParams2 : CalculateTuitionFormParams :=
  { sampleParams with num_credits := some "10" }

/-- Inversion of a successful validation: every field of the typed record
comes from the corresponding raw form field. -/
theorem validateCalc_ok_inv {p : CalculateTuitionFormParams} {tsp : TypeSafeParameters}
    {typeRaw studiesRaw : String}
    (h : validateCalc p = .ok tsp typeRaw studiesRaw) :
    p.first_name = some tsp.first_name ∧
    p.last_name = some tsp.last_name ∧
    (∃ s, p.num_credits = some s ∧ parseU8 s = some tsp.num_credits) ∧
    tsp.new_student = checkbox p.new_student ∧
    tsp.orientation = checkbox p.orientation ∧
    p.student_type = some typeRaw ∧
    p.student_studies = some studiesRaw ∧
    tsp.student_type = classifyResidency typeRaw ∧
    tsp.student_studies = classifyStudies studiesRaw := by
  unfold validateCalc at h
  repeat' split at h
  all_goals simp_all
  all_goals (rcases h with ⟨h1, h2, h3⟩)
  all_goals subst h1
  all_goals subst h2
  all_goals simp_all

/-- Inversion of a run of `calculate` that produced the result table: the
validation succeeded, the rate row was fetched with the raw form strings as
keys, the orientation step succeeded, the displayed total is
`CreditsCost * num_credits + NonresidencyFee + fee`, and the write stage
either inserted a fresh row (existence check false) or updated the matching
rows (existence check true). -/
theorem calculate_calcPage_inv {db db' : Db} {p : CalculateTuitionFormParams}
    {f l : String} {res : StudentResidency} {st : StudentStudies} {ns : Bool}
    {ofee nfee : ℚ} {nc : Nat} {cc t : ℚ}
    (h : calculate db p = .ok (.calcPage f l res st ns ofee nfee nc cc t) db') :
    ∃ tsp typeRaw studiesRaw row,
      validateCalc p = .ok tsp typeRaw studiesRaw ∧
      tsp.first_name = f ∧ tsp.last_name = l ∧ tsp.num_credits = nc ∧
      tsp.new_student = ns ∧ res = tsp.student_type ∧ st = tsp.student_studies ∧
      queryRates db studiesRaw typeRaw = .ok row ∧
      cc = row.CreditsCost ∧ nfee = row.NonresidencyFee ∧
      orientationStep db.orientationFault db.orientationFees tsp.orientation = .ok ofee ∧
      t = cc * (nc : ℚ) + nfee + ofee ∧
      ((userExists db f l = false ∧ db.insertFault = none ∧
          db' = { db with userTuition := db.userTuition ++ [⟨f, l, t⟩] }) ∨
       (userExists db f l = true ∧ db.updateFault = none ∧
          db' = { db with userTuition := updateCost db.userTuition f l t })) := by
  unfold calculate calculateBody writeStep at h
  repeat' split at h
  all_goals simp_all
  all_goals obtain ⟨⟨e1, e2, e3, e4, e5, e6, e7, e8, e9, e10⟩, hdb⟩ := h
  all_goals subst_vars
  all_goals exact ⟨_, _, _, ⟨rfl, rfl, rfl⟩, rfl, rfl, rfl, rfl, rfl, rfl, _,
    by assumption, rfl, rfl, by assumption, rfl, rfl⟩

/-- Every error page of `calculate` leaves the database exactly as it was. -/
theorem calculate_errorPage_inv {db db' : Db} {p : CalculateTuitionFormParams}
    {m : String} (h : calculate db p = .ok (.errorPage m) db') : db' = db := by
  unfold calculate calculateBody writeStep at h
  repeat' split at h
  all_goals simp_all

/-- The database left by `calculate` is the incoming one, the incoming one
with a fresh row appended, or the incoming one with matching rows updated. -/
theorem calculate_db_cases {db db' : Db} {p : CalculateTuitionFormParams}
    {resp : Response} (h : calculate db p = .ok resp db') :
    db' = db ∨
    (∃ f l t, db' = { db with userTuition := db.userTuition ++ [⟨f, l, t⟩] }) ∨
    (∃ f l t, db' = { db with userTuition := updateCost db.userTuition f l t }) := by
  unfold calculate calculateBody writeStep at h
  repeat' split at h
  all_goals simp_all
  all_goals rcases h with ⟨-, hdb⟩
  all_goals first
    | exact Or.inl hdb.symm
    | exact Or.inr (Or.inl ⟨_, _, _, hdb.symm⟩)
    | exact Or.inr (Or.inr ⟨_, _, _, hdb.symm⟩)

/-- An updated row keeps its names. -/
theorem updateCost_mem (rows : List UserTuitionRow) (f l : String) (t : ℚ)
    {r : UserTuitionRow} (hr : r ∈ rows) :
    ∃ r' ∈ updateCost rows f l t,
      r'.FirstName = r.FirstName ∧ r'.LastName = r.LastName := by
  unfold updateCost
  refine ⟨_, List.mem_map_of_mem _ hr, ?_, ?_⟩ <;>
    (by_cases hc : (r.FirstName == f && r.LastName == l) = true <;> simp [hc])

/-- `calculate` never removes a stored name pair. -/
theorem calculate_preserves_names {db db' : Db} {p : CalculateTuitionFormParams}
    {resp : Response} (h : calculate db p = .ok resp db') :
    ∀ r ∈ db.userTuition, ∃ r' ∈ db'.userTuition,
      r'.FirstName = r.FirstName ∧ r'.LastName = r.LastName := by
  intro r hr
  rcases calculate_db_cases h with hdb | ⟨f, l, t, hdb⟩ | ⟨f, l, t, hdb⟩
  · exact ⟨r, hdb ▸ hr, rfl, rfl⟩
  · exact ⟨r, by simp [hdb, List.mem_append_left _ hr], rfl, rfl⟩
  · subst hdb
    exact updateCost_mem _ f l t hr

/-- `lookup` never panics and never changes the database. -/
theorem lookup_readonly (db : Db) (p : LookupFormParams) :
    (∀ resp db', lookup db p = .ok resp db' → db' = db) ∧ lookup db p ≠ .panic := by
  unfold lookup
  repeat' split
  all_goals simp_all

/-- When the orientation checkbox is off, `calculate` never touches the
`orientation_fee` table: its whole run on a database with different
orientation-fee contents (or a failing orientation statement) is the same
run, up to those untouched fields of the final database. -/
theorem calculate_orientation_off_congr (db : Db) (p : CalculateTuitionFormParams)
    (o : List OrientationFeeRow) (g : Option String)
    (h : checkbox p.orientation = false) :
    calculate { db with orientationFees := o, orientationFault := g } p
      = (calculate db p).mapDb
          (fun d => { d with orientationFees := o, orientationFault := g }) := by
  unfold calculate
  cases hv : validateCalc p with
  | panics => simp [Outcome.mapDb]
  | err m => simp [Outcome.mapDb]
  | ok tsp tr sr =>
    have hor : tsp.orientation = false := by
      have h5 := (validateCalc_ok_inv hv).2.2.2.2.1
      rw [h] at h5
      exact h5
    unfold calculateBody writeStep
    simp only [queryRates, orientationStep, userExists, updateCost, hor, Outcome.mapDb]
    repeat' split
    all_goals simp_all [Outcome.mapDb]
    all_goals (rename_i hh; obtain ⟨-, hdb⟩ := hh; subst hdb; simp)

/-- Construction: when every required field is present and the credit count
parses, validation succeeds with the typed record read off the form. -/
theorem validateCalc_eq_ok {p : CalculateTuitionFormParams} {f l s : String} {n : Nat}
    {tRaw sRaw : String}
    (h1 : p.first_name = some f) (h2 : p.last_name = some l)
    (h3 : p.num_credits = some s) (h4 : parseU8 s = some n)
    (h5 : p.student_type = some tRaw) (h6 : p.student_studies = some sRaw) :
    validateCalc p = .ok ⟨f, l, n, checkbox p.new_student, checkbox p.orientation,
      classifyResidency tRaw, classifyStudies sRaw⟩ tRaw sRaw := by
  simp only [validateCalc, h1, h2, h3, h4, h5, h6]

/-- Filtering by a name pair commutes with the UPDATE statement: the rows
matching the pair after the update are exactly the rows matching before,
each with its `TuitionCost` replaced. -/
theorem filter_updateCost (rows : List UserTuitionRow) (f l : String) (t : ℚ) :
    (updateCost rows f l t).filter (fun r => r.FirstName == f && r.LastName == l)
      = (rows.filter (fun r => r.FirstName == f && r.LastName == l)).map
          (fun r => { r with TuitionCost := t }) := by
  unfold updateCost
  rw [List.filter_map]
  have h1 : List.filter ((fun r : UserTuitionRow => r.FirstName == f && r.LastName == l) ∘
        (fun r : UserTuitionRow =>
          if r.FirstName == f && r.LastName == l then { r with TuitionCost := t } else r)) rows
      = List.filter (fun r => r.FirstName == f && r.LastName == l) rows := by
    apply List.filter_congr
    intro r _
    by_cases hc : (r.FirstName == f && r.LastName == l) = true
    · simp [Function.comp, hc]
    · simp [Function.comp, hc]
  rw [h1]
  apply List.map_congr_left
  intro r hr
  have hc := List.of_mem_filter hr
  simp [hc]

theorem sample_run :
    calculate sampleDb sampleParams =
      .ok (.calcPage "Ada" "L" .Out .Undergraduate true 0 500 12 300 4100)
        { sampleDb with userTuition := [⟨"Ada", "L", 4100⟩] } := by
  simp [calculate, validateCalc, calculateBody, writeStep, queryRates, orientationStep,
    userExists, updateCost, fetchOne, checkbox, classifyResidency, classifyStudies,
    parseU8, sqlxMessage, sampleDb, sampleParams, List.filter]
  norm_num

/-- C1: whenever `calculate` renders the result table — so the rate row
(CreditsCost, NonresidencyFee) and the orientation fee were obtained — the
displayed (and stored) total is exactly
`CreditsCost * num_credits + NonresidencyFee + orientationFee` in exact
(rational) arithmetic, and with no orientation requested the fee is 0, so the
total is exactly `CreditsCost * num_credits + NonresidencyFee`. -/
theorem C1_total_formula {db db' : Db} {p : CalculateTuitionFormParams}
    {f l : String} {res : StudentResidency} {st : StudentStudies} {ns : Bool}
    {ofee nfee : ℚ} {nc : Nat} {cc t : ℚ}
    (h : calculate db p = .ok (.calcPage f l res st ns ofee nfee nc cc t) db') :
    t = cc * (nc : ℚ) + nfee + ofee ∧
    (∃ typeRaw studiesRaw row,
      p.student_type = some typeRaw ∧ p.student_studies = some studiesRaw ∧
      queryRates db studiesRaw typeRaw = .ok row ∧
      cc = row.CreditsCost ∧ nfee = row.NonresidencyFee) ∧
    (checkbox p.orientation = false → ofee = 0 ∧ t = cc * (nc : ℚ) + nfee) := by
  obtain ⟨tsp, tr, sr, row, hv, -, -, -, -, -, -, hq, hcc, hnf, hor, ht, -⟩ :=
    calculate_calcPage_inv h
  have hinv := validateCalc_ok_inv hv
  refine ⟨ht, ⟨tr, sr, row, hinv.2.2.2.2.2.1, hinv.2.2.2.2.2.2.1, hq, hcc, hnf⟩, ?_⟩
  intro hoff
  have hb : tsp.orientation = false := by rw [hinv.2.2.2.2.1, hoff]
  rw [hb] at hor
  simp only [orientationStep, Bool.false_eq_true, if_false, Except.ok.injEq] at hor
  subst hor
  exact ⟨rfl, by rw [ht, add_zero]⟩

/-- C1 witness: the spec's own example — creditsCost 300.00, 12 credits,
nonresidency fee 500.00, no orientation — yields total 4100.00. -/
theorem C1_total_formula_witness : (4100 : ℚ) = 300 * ((12 : Nat) : ℚ) + 500 + 0 :=
  (C1_total_formula sample_run).1

/-- C4: the claim says a /calculate request whose num_credits is present but
not a numeral in [0,255] (e.g. "abc") is recovered into the generic error
page.  The code instead calls `.parse::<u8>().unwrap()` (main.rs line 179):
the handler run panics, and no error page is produced. -/
theorem C4_parse_panics :
    calculate sampleDb abcParams = .panic ∧
    ∀ m db', calculate sampleDb abcParams ≠ .ok (.errorPage m) db' := by
  have h : calculate sampleDb abcParams = .panic := by decide
  exact ⟨h, by rw [h]; intro m db' hc; cases hc⟩

/-- C5 counterexample: student_type "unrecognized" and "nonresident" get the
same NonResident classification, but are NOT processed identically: the rate
query binds the raw string (main.rs line 231), so "unrecognized" misses the
rate row that "nonresident" finds — one run errors where the other computes
and stores a total. -/
theorem C5_counterexample :
    classifyResidency "unrecognized" = .Out ∧
    (calculate sampleDb unrecognizedParams).resp =
      some (.errorPage ("Error while accessing database: " ++ sqlxMessage .RowNotFound)) ∧
    (calculate sampleDb sampleParams).resp =
      some (.calcPage "Ada" "L" .Out .Undergraduate true 0 500 12 300 4100) ∧
    calculate sampleDb unrecognizedParams ≠ calculate sampleDb sampleParams := by
  have h1 : (calculate sampleDb unrecognizedParams).resp =
      some (.errorPage ("Error while accessing database: " ++ sqlxMessage .RowNotFound)) := by
    simp [calculate, validateCalc, calculateBody, writeStep, queryRates, orientationStep,
      userExists, updateCost, fetchOne, checkbox, classifyResidency, classifyStudies,
      parseU8, sqlxMessage, sampleDb, sampleParams, unrecognizedParams, List.filter,
      Outcome.resp]
  refine ⟨by decide, h1, by rw [sample_run]; rfl, fun hc => ?_⟩
  rw [hc, sample_run] at h1
  cases h1

/-- C5 (amended): a present student_type value other than "resident" yields
the same NonResident classification as "nonresident" — the page shows
Non-Resident — but the rate row is fetched with the raw string as key, so the
row (and hence the total) is whatever the table holds under that raw string,
not necessarily what "nonresident" would fetch. -/
theorem C5_amended {v : String} (hv : v ≠ "resident")
    {db db' : Db} {p : CalculateTuitionFormParams}
    {f l : String} {res : StudentResidency} {st : StudentStudies} {ns : Bool}
    {ofee nfee : ℚ} {nc : Nat} {cc t : ℚ}
    (hp : p.student_type = some v)
    (h : calculate db p = .ok (.calcPage f l res st ns ofee nfee nc cc t) db') :
    classifyResidency v = classifyResidency "nonresident" ∧
    res = .Out ∧
    (∃ studiesRaw row, p.student_studies = some studiesRaw ∧
      queryRates db studiesRaw v = .ok row ∧
      cc = row.CreditsCost ∧ nfee = row.NonresidencyFee) := by
  have hbeq : (v == "resident") = false := beq_eq_false_iff_ne.mpr hv
  have hcl : classifyResidency v = .Out := by
    simp [classifyResidency, hbeq]
  obtain ⟨tsp, tr, sr, row, hv', -, -, -, -, hres, -, hq, hcc, hnf, -, -, -⟩ :=
    calculate_calcPage_inv h
  have hinv := validateCalc_ok_inv hv'
  have htr : tr = v := by
    have := hinv.2.2.2.2.2.1
    rw [hp] at this
    exact (Option.some.inj this).symm
  subst htr
  refine ⟨by rw [hcl]; decide, ?_, sr, row, hinv.2.2.2.2.2.2.1, hq, hcc, hnf⟩
  rw [hres, hinv.2.2.2.2.2.2.2.1, hcl]

theorem weird_run :
    calculate weirdDb weirdParams =
      .ok (.calcPage "Ada" "L" .Out .Undergraduate true 0 50 12 200 2450)
        { weirdDb with userTuition := [⟨"Ada", "L", 2450⟩] } := by
  simp [calculate, validateCalc, calculateBody, writeStep, queryRates, orientationStep,
    userExists, updateCost, fetchOne, checkbox, classifyResidency, classifyStudies,
    parseU8, sqlxMessage, weirdDb, sampleParams, weirdParams, List.filter]
  norm_num

/-- C5 amended witness: a concrete run with student_type "weird". -/
theorem C5_amended_witness :
    classifyResidency "weird" = classifyResidency "nonresident" :=
  (C5_amended (by decide) (by rfl) weird_run).1

/-- C6 counterexample: the claim says every present student_studies value
other than "undergraduate" also maps to Undergraduate, so Graduate is never
selected.  But the validator maps the literal "nonresident" to Graduate
(main.rs lines 213-214), and a full run renders the Graduate page. -/
theorem C6_counterexample :
    classifyStudies "nonresident" = .Graduate ∧
    (calculate gradDb gradParams).resp =
      some (.calcPage "Ada" "L" .In .Graduate false 0 0 3 400 1200) := by
  refine ⟨by decide, ?_⟩
  simp [calculate, validateCalc, calculateBody, writeStep, queryRates, orientationStep,
    userExists, updateCost, fetchOne, checkbox, classifyResidency, classifyStudies,
    parseU8, sqlxMessage, gradDb, gradParams, List.filter, Outcome.resp]
  norm_num

/-- C6 (amended): the validator maps "undergraduate" to Undergraduate, the
literal "nonresident" (a copy-paste defect for "graduate") to Graduate, and
every other present value — "graduate" included — to Undergraduate; an absent
student_studies yields the validation failure page and no write. -/
theorem C6_amended :
    classifyStudies "undergraduate" = .Undergraduate ∧
    classifyStudies "nonresident" = .Graduate ∧
    classifyStudies "graduate" = .Undergraduate ∧
    (∀ v, v ≠ "nonresident" → classifyStudies v = .Undergraduate) ∧
    (∀ db p f l s n tr, p.first_name = some f → p.last_name = some l →
      p.num_credits = some s → parseU8 s = some n → p.student_type = some tr →
      p.student_studies = none →
      calculate db p =
        .ok (.errorPage "User must be either a undergraduate or graduate.") db) := by
  refine ⟨by decide, by decide, by decide, ?_, ?_⟩
  · intro v hv
    by_cases hu : v = "undergraduate"
    · subst hu; decide
    · simp [classifyStudies, beq_eq_false_iff_ne.mpr hu, beq_eq_false_iff_ne.mpr hv]
  · intro db p f l s n tr h1 h2 h3 h4 h5 h6
    simp only [calculate, validateCalc, h1, h2, h3, h4, h5, h6]

/-- C6 amended witness: "graduate" selects Undergraduate and an absent
student_studies is the validation failure, on concrete inputs. -/
theorem C6_amended_witness :
    classifyStudies "graduate" = .Undergraduate ∧
    calculate sampleDb noStudiesParams =
      .ok (.errorPage "User must be either a undergraduate or graduate.") sampleDb :=
  ⟨C6_amended.2.2.2.1 "graduate" (by decide),
   C6_amended.2.2.2.2 sampleDb noStudiesParams "Ada" "L" "12" 12 "nonresident"
     rfl rfl rfl (by decide) rfl rfl⟩

/-- C9 counterexample: the claim says a whitespace-only first_name or
last_name is rejected with a validation failure and no query is made.  The
code only checks presence (main.rs lines 61-74): whitespace-only names pass,
the query runs, and the stored row is rendered — not an error page. -/
theorem C9_counterexample :
    lookup wsDb wsLookup = .ok (.lookupPage " " " " 100) wsDb ∧
    ∀ m db', lookup wsDb wsLookup ≠ .ok (.errorPage m) db' := by
  have h : lookup wsDb wsLookup = .ok (.lookupPage " " " " 100) wsDb := by
    simp [lookup, wsDb, wsLookup, fetchOne, List.filter]
  exact ⟨h, by rw [h]; intro m db' hc; cases hc⟩

/-- C9 (amended): each of first_name and last_name is required only to be
PRESENT: an absent field yields the named validation failure uniformly in the
database (no query); any present value — empty or whitespace-only included —
is bound verbatim (no trim) into the UserTuition query, whose outcome alone
decides the response. -/
theorem C9_amended :
    (∀ db p, p.first_name = none →
      lookup db p = .ok (.errorPage "First name not provided") db) ∧
    (∀ db p f, p.first_name = some f → p.last_name = none →
      lookup db p = .ok (.errorPage "Last name not provided") db) ∧
    (∀ db p f l, p.first_name = some f → p.last_name = some l →
      lookup db p = match fetchOne db.lookupFault
          (db.userTuition.filter fun r => r.FirstName == f && r.LastName == l) with
        | .error why =>
          .ok (.errorPage ("Error while accessing database: " ++ sqlxMessage why)) db
        | .ok u => .ok (.lookupPage u.FirstName u.LastName u.TuitionCost) db) := by
  refine ⟨?_, ?_, ?_⟩
  · intro db p h1
    simp only [lookup, h1]
  · intro db p f h1 h2
    simp only [lookup, h1, h2]
  · intro db p f l h1 h2
    simp only [lookup, h1, h2]

/-- C9 amended witness: an absent first name on a concrete database. -/
theorem C9_amended_witness :
    lookup wsDb noFirstLookup = .ok (.errorPage "First name not provided") wsDb :=
  C9_amended.1 wsDb noFirstLookup rfl

/-- C7: every error page of /calculate leaves the database unchanged (no
insert or update happens on any failure), and the named early failures —
missing first_name, failed rate fetch, failed orientation fetch — do return
the generic error page with the database unchanged. -/
theorem C7_failures_no_write :
    (∀ db p m db', calculate db p = .ok (.errorPage m) db' → db' = db) ∧
    (∀ db p, p.first_name = none →
      calculate db p = .ok (.errorPage "No first name was provided!") db) ∧
    (∀ db p tsp tr sr e, validateCalc p = .ok tsp tr sr →
      queryRates db sr tr = .error e →
      calculate db p =
        .ok (.errorPage ("Error while accessing database: " ++ sqlxMessage e)) db) ∧
    (∀ db p tsp tr sr row e, validateCalc p = .ok tsp tr sr →
      queryRates db sr tr = .ok row →
      orientationStep db.orientationFault db.orientationFees tsp.orientation = .error e →
      calculate db p =
        .ok (.errorPage ("Error while accessing database: " ++ sqlxMessage e)) db) := by
  refine ⟨fun db p m db' h => calculate_errorPage_inv h, ?_, ?_, ?_⟩
  · intro db p h1
    simp only [calculate, validateCalc, h1]
  · intro db p tsp tr sr e hv hq
    simp only [calculate, hv, calculateBody, hq]
  · intro db p tsp tr sr row e hv hq ho
    simp only [calculate, hv, calculateBody, hq, ho]

/-- C7 witness: a concrete /calculate with a missing first name returns the
error page over the unchanged database. -/
theorem C7_failures_no_write_witness :
    calculate sampleDb noFirstParams =
      .ok (.errorPage "No first name was provided!") sampleDb :=
  C7_failures_no_write.2.1 sampleDb noFirstParams rfl

/-- C8: a /lookup whose names are present but whose UserTuition query matches
zero rows returns the generic error page whose logged diagnostic is
"Error while accessing database: " followed by the driver's no-rows message;
and `lookup` can never panic, on any input. -/
theorem C8_lookup_no_row (db : Db) (p : LookupFormParams) (f l : String)
    (hf : p.first_name = some f) (hl : p.last_name = some l)
    (hfault : db.lookupFault = none)
    (hzero : db.userTuition.filter (fun r => r.FirstName == f && r.LastName == l) = []) :
    lookup db p =
      .ok (.errorPage ("Error while accessing database: " ++ sqlxMessage .RowNotFound)) db
    ∧ ∀ db' p', lookup db' p' ≠ .panic := by
  constructor
  · simp only [lookup, hf, hl, hzero, hfault, fetchOne]
  · intro db' p'
    exact (lookup_readonly db' p').2

/-- C8 witness: a concrete /lookup for an unstored name pair. -/
theorem C8_lookup_no_row_witness :
    lookup wsDb absentLookup =
      .ok (.errorPage ("Error while accessing database: " ++ sqlxMessage .RowNotFound)) wsDb :=
  (C8_lookup_no_row wsDb absentLookup "X" "Y" rfl rfl rfl (by decide)).1

/-- C10: when the existence-check statement itself fails (an I/O fault, not
merely no-rows), `user_exists` is false, so the handler takes the INSERT path
— even if a matching row is already stored — and at the write stage only the
insert statement's own failure produces the error page. -/
theorem C10_exists_error_means_insert
    {db : Db} {p : CalculateTuitionFormParams} {tsp : TypeSafeParameters}
    {tr sr : String} {row : CreditCostsRow} {fee : ℚ} {m : String}
    (hv : validateCalc p = .ok tsp tr sr)
    (hq : queryRates db sr tr = .ok row)
    (ho : orientationStep db.orientationFault db.orientationFees tsp.orientation = .ok fee)
    (hfault : db.existsFault = some m) :
    userExists db tsp.first_name tsp.last_name = false ∧
    (db.insertFault = none →
      calculate db p =
        .ok (.calcPage tsp.first_name tsp.last_name tsp.student_type tsp.student_studies
              tsp.new_student fee row.NonresidencyFee tsp.num_credits row.CreditsCost
              (row.CreditsCost * (tsp.num_credits : ℚ) + row.NonresidencyFee + fee))
          { db with userTuition := db.userTuition ++
              [⟨tsp.first_name, tsp.last_name,
                row.CreditsCost * (tsp.num_credits : ℚ) + row.NonresidencyFee + fee⟩] }) ∧
    (∀ w, db.insertFault = some w →
      calculate db p =
        .ok (.errorPage ("Error while inserting to the database: " ++ w)) db) := by
  have hex : userExists db tsp.first_name tsp.last_name = false := by
    simp [userExists, fetchOne, hfault]
  refine ⟨hex, ?_, ?_⟩
  · intro hins
    simp [calculate, hv, calculateBody, hq, ho, writeStep, hex, hins]
  · intro w hins
    simp [calculate, hv, calculateBody, hq, ho, writeStep, hex, hins]

/-- C10 witness: with the existence check failing on a database that already
holds a matching row, the check still reports "absent". -/
theorem C10_exists_error_means_insert_witness :
    userExists faultyDb "Ada" "L" = false :=
  (@C10_exists_error_means_insert faultyDb sampleParams
    ⟨"Ada", "L", 12, true, false, .Out, .Undergraduate⟩
    "nonresident" "undergraduate" ⟨"undergraduate", "nonresident", 300, 500⟩
    0 "connection reset" (by decide) rfl rfl rfl).1

/-- Helper: a successful /calculate whose orientation checkbox is off shows
orientation fee 0 on the page. -/
theorem calcPage_orientation_off {db db' : Db} {p : CalculateTuitionFormParams}
    {f l : String} {res : StudentResidency} {st : StudentStudies} {ns : Bool}
    {ofee nfee : ℚ} {nc : Nat} {cc t : ℚ}
    (hoff : checkbox p.orientation = false)
    (h : calculate db p = .ok (.calcPage f l res st ns ofee nfee nc cc t) db') :
    ofee = 0 := by
  obtain ⟨tsp, tr, sr, row, hv, -, -, -, -, -, -, -, -, -, hor, -, -⟩ :=
    calculate_calcPage_inv h
  have hb : tsp.orientation = false := by
    rw [(validateCalc_ok_inv hv).2.2.2.2.1, hoff]
  rw [hb] at hor
  simp only [orientationStep, Bool.false_eq_true, if_false, Except.ok.injEq] at hor
  exact hor.symm

/-- C2: with the orientation checkbox off, the fee on the result page is 0 and
the whole run — response and resulting UserTuition table — is independent of
the orientation_fee table and of its statement fault (the table is not read);
with the checkbox on, the total exceeds the total of the otherwise-identical
no-orientation request by exactly the singleton fetched fee. -/
theorem C2_orientation_fee
    (db : Db) (p : CalculateTuitionFormParams)
    (o1 o2 : List OrientationFeeRow) (g1 g2 : Option String) (row : OrientationFeeRow)
    (f l f' l' : String) (res res' : StudentResidency) (st st' : StudentStudies)
    (ns ns' : Bool) (ofee nfee ofee' nfee' : ℚ) (nc nc' : Nat) (cc cc' t1 t2 : ℚ)
    (db1 db2 : Db) :
    (checkbox p.orientation = false →
      (calculate { db with orientationFees := o1, orientationFault := g1 } p
          = .ok (.calcPage f l res st ns ofee nfee nc cc t1) db1 → ofee = 0) ∧
      (calculate { db with orientationFees := o1, orientationFault := g1 } p).resp
        = (calculate { db with orientationFees := o2, orientationFault := g2 } p).resp ∧
      (calculate { db with orientationFees := o1, orientationFault := g1 } p).tuitionTable
        = (calculate { db with orientationFees := o2, orientationFault := g2 } p).tuitionTable) ∧
    (checkbox p.orientation = true →
      db.orientationFees = [row] → db.orientationFault = none →
      calculate db p = .ok (.calcPage f l res st ns ofee nfee nc cc t1) db1 →
      calculate db { p with orientation := none }
        = .ok (.calcPage f' l' res' st' ns' ofee' nfee' nc' cc' t2) db2 →
      ofee = row.Fee ∧ t1 = t2 + row.Fee) := by
  constructor
  · intro hoff
    have e1 := calculate_orientation_off_congr db p o1 g1 hoff
    have e2 := calculate_orientation_off_congr db p o2 g2 hoff
    refine ⟨fun h => calcPage_orientation_off hoff h, ?_, ?_⟩ <;>
      (rw [e1, e2]; cases calculate db p <;>
        simp [Outcome.mapDb, Outcome.resp, Outcome.tuitionTable])
  · intro hon hfees hfault h1 h2
    obtain ⟨tsp, tr, sr, rrow, hv, -, -, hnc1, -, -, -, hq1, hcc1, hnf1, hor1, ht1, -⟩ :=
      calculate_calcPage_inv h1
    obtain ⟨tsp', tr', sr', rrow', hv', -, -, hnc2, -, -, -, hq2, hcc2, hnf2, hor2, ht2, -⟩ :=
      calculate_calcPage_inv h2
    have hi := validateCalc_ok_inv hv
    have hi' := validateCalc_ok_inv hv'
    have hbon : tsp.orientation = true := by rw [hi.2.2.2.2.1, hon]
    rw [hbon, hfault, hfees] at hor1
    have hofee : ofee = row.Fee := by
      simp [orientationStep, fetchOne, Except.map] at hor1
      exact hor1.symm
    have hboff : tsp'.orientation = false := by
      rw [hi'.2.2.2.2.1]; rfl
    rw [hboff] at hor2
    simp only [orientationStep, Bool.false_eq_true, if_false, Except.ok.injEq] at hor2
    have hofee' : ofee' = 0 := hor2.symm
    have htr : tr' = tr := by
      have a := hi.2.2.2.2.2.1
      have b : p.student_type = some tr' := hi'.2.2.2.2.2.1
      rw [a] at b
      exact (Option.some.inj b).symm
    have hsr : sr' = sr := by
      have a := hi.2.2.2.2.2.2.1
      have b : p.student_studies = some sr' := hi'.2.2.2.2.2.2.1
      rw [a] at b
      exact (Option.some.inj b).symm
    have hrow : rrow' = rrow := by
      rw [htr, hsr, hq1] at hq2
      exact Except.ok.inj hq2.symm
    obtain ⟨s, hs, hps⟩ := hi.2.2.1
    obtain ⟨s', hs', hps'⟩ := hi'.2.2.1
    have hss : s' = s := by
      have b : p.num_credits = some s' := hs'
      rw [hs] at b
      exact (Option.some.inj b).symm
    have hncs : tsp'.num_credits = tsp.num_credits := by
      rw [hss] at hps'
      rw [hps] at hps'
      exact (Option.some.inj hps').symm
    refine ⟨hofee, ?_⟩
    rw [ht1, ht2, hofee, hofee', hcc1, hcc2, hnf1, hnf2, hrow, ← hnc1, ← hnc2, hncs]
    ring

theorem on_run :
    calculate sampleDb onParams =
      .ok (.calcPage "Ada" "L" .Out .Undergraduate true 75 500 12 300 4175)
        { sampleDb with userTuition := [⟨"Ada", "L", 4175⟩] } := by
  simp [calculate, validateCalc, calculateBody, writeStep, queryRates, orientationStep,
    userExists, updateCost, fetchOne, checkbox, classifyResidency, classifyStudies,
    parseU8, sqlxMessage, sampleDb, sampleParams, onParams, List.filter, Except.map]
  norm_num

/-- C2 witness: on the sample database the orientation run totals 4175 and the
otherwise-identical no-orientation run totals 4100 — apart by the fee 75. -/
theorem C2_orientation_fee_witness :
    (75 : ℚ) = (⟨75⟩ : OrientationFeeRow).Fee ∧
    (4175 : ℚ) = 4100 + (⟨75⟩ : OrientationFeeRow).Fee :=
  (C2_orientation_fee sampleDb onParams [] [] none none ⟨75⟩
    "Ada" "L" "Ada" "L" .Out .Out .Undergraduate .Undergraduate true true
    75 500 0 500 12 12 300 300 4175 4100
    { sampleDb with userTuition := [⟨"Ada", "L", 4175⟩] }
    { sampleDb with userTuition := [⟨"Ada", "L", 4100⟩] }).2
    rfl rfl rfl on_run sample_run

/-- C3: starting from a database whose existence-check statement works and
which stores no row for the pair (f,l), a first successful calculation leaves
exactly the one row (f,l,total₁), and a second successful calculation for the
same pair leaves exactly the one row (f,l,total₂) — insert then update, never
two rows; moreover `calculate` never deletes a stored name pair and `lookup`
never changes the database at all. -/
theorem C3_upsert :
    (∀ (db0 db1 db2 : Db) (p1 p2 : CalculateTuitionFormParams) (f l : String)
       (res1 res2 : StudentResidency) (st1 st2 : StudentStudies) (ns1 ns2 : Bool)
       (o1 o2 n1 n2 : ℚ) (c1 c2 : Nat) (cc1 cc2 t1 t2 : ℚ),
      db0.existsFault = none →
      db0.userTuition.filter (fun r => r.FirstName == f && r.LastName == l) = [] →
      calculate db0 p1 = .ok (.calcPage f l res1 st1 ns1 o1 n1 c1 cc1 t1) db1 →
      calculate db1 p2 = .ok (.calcPage f l res2 st2 ns2 o2 n2 c2 cc2 t2) db2 →
      db1.userTuition.filter (fun r => r.FirstName == f && r.LastName == l) = [⟨f, l, t1⟩] ∧
      db2.userTuition.filter (fun r => r.FirstName == f && r.LastName == l) = [⟨f, l, t2⟩]) ∧
    (∀ db p resp db', calculate db p = .ok resp db' →
      ∀ r ∈ db.userTuition, ∃ r' ∈ db'.userTuition,
        r'.FirstName = r.FirstName ∧ r'.LastName = r.LastName) ∧
    (∀ db p resp db', lookup db p = .ok resp db' → db' = db) := by
  refine ⟨?_, fun db p resp db' h => calculate_preserves_names h,
    fun db p resp db' h => (lookup_readonly db p).1 resp db' h⟩
  intro db0 db1 db2 p1 p2 f l res1 res2 st1 st2 ns1 ns2 o1 o2 n1 n2 c1 c2 cc1 cc2 t1 t2
    hfault hclean h1 h2
  have hmatch : ((⟨f, l, t1⟩ : UserTuitionRow).FirstName == f
      && (⟨f, l, t1⟩ : UserTuitionRow).LastName == l) = true := by simp
  have hex0 : userExists db0 f l = false := by
    simp [userExists, hclean, fetchOne, hfault]
  obtain ⟨-, -, -, -, -, -, -, -, -, -, -, -, -, -, -, -, hw1⟩ := calculate_calcPage_inv h1
  rcases hw1 with ⟨-, -, hdb1⟩ | ⟨hex, -, -⟩
  swap
  · rw [hex0] at hex; cases hex
  have hfil1 : db1.userTuition.filter (fun r => r.FirstName == f && r.LastName == l)
      = [⟨f, l, t1⟩] := by
    rw [hdb1]
    simp only [List.filter_append, hclean, List.nil_append]
    simp [List.filter]
  have hfault1 : db1.existsFault = none := by rw [hdb1]; exact hfault
  have hex1 : userExists db1 f l = true := by
    simp [userExists, hfil1, fetchOne, hfault1]
  obtain ⟨-, -, -, -, -, -, -, -, -, -, -, -, -, -, -, -, hw2⟩ := calculate_calcPage_inv h2
  rcases hw2 with ⟨hex', -, -⟩ | ⟨-, -, hdb2⟩
  · rw [hex1] at hex'; cases hex'
  refine ⟨hfil1, ?_⟩
  rw [hdb2]
  show (updateCost db1.userTuition f l t2).filter _ = _
  rw [filter_updateCost, hfil1]
  rfl

theorem sample_run2 :
    calculate { sampleDb with userTuition := [⟨"Ada", "L", 4100⟩] } sampleParams2 =
      .ok (.calcPage "Ada" "L" .Out .Undergraduate true 0 500 10 300 3500)
        { sampleDb with userTuition := [⟨"Ada", "L", 3500⟩] } := by
  simp [calculate, validateCalc, calculateBody, writeStep, queryRates, orientationStep,
    userExists, updateCost, fetchOne, checkbox, classifyResidency, classifyStudies,
    parseU8, sqlxMessage, sampleDb, sampleParams, sampleParams2, List.filter]
  norm_num

/-- C3 witness: two concrete runs for ("Ada","L") — 12 credits then 10 credits
— leave exactly one stored row, holding the second total 3500. -/
theorem C3_upsert_witness :
    ({ sampleDb with userTuition := [⟨"Ada", "L", 3500⟩] } : Db).userTuition.filter
        (fun r => r.FirstName == "Ada" && r.LastName == "L")
      = [⟨"Ada", "L", 3500⟩] :=
  (C3_upsert.1 sampleDb { sampleDb with userTuition := [⟨"Ada", "L", 4100⟩] }
    { sampleDb with userTuition := [⟨"Ada", "L", 3500⟩] }
    sampleParams sampleParams2 "Ada" "L" .Out .Out .Undergraduate .Undergraduate true true
    0 0 500 500 12 10 300 300 4100 3500
    rfl rfl sample_run sample_run2).2

